import Mathlib

/-!
Shallow embedding of the model_navigator framework_api excerpt:
the format/variant enumerations and path resolver, the sample
normalization and validation helpers, the keyword-to-argument-list
encoder (utils.py), the two TensorFlow convert commands (commands/convert/tf.py),
and the PyTorch pipeline builder (pipelines/pipeline_manager_pyt.py).
-/

deriving instance DecidableEq for Except

namespace ModelNavigator

/-- The Format enum from model_navigator.model (module not included in the
excerpt); constructors are the members used by the excerpt. -/
inductive Format where
  | ONNX
  | TORCHSCRIPT
  | TORCH_TRT
  | TF_SAVEDMODEL
  | TF_TRT
  | TENSORRT
deriving DecidableEq, Repr, Fintype

/-- Modelled from the spec: the string value of each Format member
(model.py is not part of the excerpt).  The claims treat the value as an
opaque per-format string that seeds the artifact directory name. -/
def Format.value : Format → String
  | .ONNX => "onnx"
  | .TORCHSCRIPT => "torchscript"
  | .TORCH_TRT => "torch-trt"
  | .TF_SAVEDMODEL => "tf-savedmodel"
  | .TF_TRT => "tf-trt"
  | .TENSORRT => "trt"

/-- JitType enum from utils.py. -/
inductive JitType where
  | SCRIPT
  | TRACE
deriving DecidableEq, Repr, Fintype

def JitType.value : JitType → String
  | .SCRIPT => "script"
  | .TRACE => "trace"

/-- Modelled from the spec: TensorRTPrecision from
model_navigator.converter.config (module not in the excerpt); the claims
treat the value as an opaque per-precision string. -/
inductive TensorRTPrecision where
  | FP32
  | FP16
  | INT8
deriving DecidableEq, Repr, Fintype

def TensorRTPrecision.value : TensorRTPrecision → String
  | .FP32 => "fp32"
  | .FP16 => "fp16"
  | .INT8 => "int8"

/-- RuntimeProvider enum from utils.py (string values omitted: the claims
only compare members). -/
inductive RuntimeProvider where
  | TRT
  | TRT_EXEC
  | CUDA
  | CPU
  | TF
  | PYT
deriving DecidableEq, Repr, Fintype

/-- Status enum from utils.py. -/
inductive Status where
  | OK
  | FAIL
  | NOOP
  | INITIALIZED
  | SKIPPED
deriving DecidableEq, Repr, Fintype

/-- Framework enum from utils.py. -/
inductive Framework where
  | TF2
  | PYT
  | ONNX
  | JAX
deriving DecidableEq, Repr, Fintype

/-- A relative model path: the variant directory and the fixed filename,
mirroring the `Path(path_str) / "model.ext"` values built by
format_to_relative_model_path. -/
structure RelPath where
  dir : String
  file : String
deriving DecidableEq, Repr

/-- The directory-name accumulator of format_to_relative_model_path
(utils.py lines 172-182): starts from format.value, then appends
"-<jit>" when jit_type is given, "-xla" when enable_xla is True,
"-jit" when jit_compile is True, and "-<precision>" when precision is
given, in that textual order.  Python truthiness: an enum member is
always truthy, `enable_xla is True` / `jit_compile is True` only accept
the literal True. -/
def pathDirName (format : Format) (jit_type : Option JitType)
    (precision : Option TensorRTPrecision) (enable_xla : Option Bool)
    (jit_compile : Option Bool) : String :=
  let path_str := format.value
  let path_str := match jit_type with
    | some j => path_str ++ "-" ++ j.value
    | none => path_str
  let path_str := if enable_xla = some true then path_str ++ "-xla" else path_str
  let path_str := if jit_compile = some true then path_str ++ "-jit" else path_str
  match precision with
  | some p => path_str ++ "-" ++ p.value
  | none => path_str

/-- format_to_relative_model_path (utils.py lines 165-199).  Each branch
of the Python if-chain returns, so the chain is an if/else-if ladder; the
final `else` raises, modelled as `Except.error`. -/
def format_to_relative_model_path (format : Format) (jit_type : Option JitType)
    (precision : Option TensorRTPrecision) (enable_xla : Option Bool)
    (jit_compile : Option Bool) : Except String RelPath :=
  let path_str := pathDirName format jit_type precision enable_xla jit_compile
  if format = Format.ONNX then
    .ok ⟨path_str, "model.onnx"⟩
  else if format = Format.TORCHSCRIPT ∧ jit_type.isSome then
    .ok ⟨path_str, "model.pt"⟩
  else if format = Format.TORCH_TRT ∧ jit_type.isSome ∧ precision.isSome then
    .ok ⟨path_str, "model.pt"⟩
  else if format = Format.TF_SAVEDMODEL then
    .ok ⟨path_str, "model.savedmodel"⟩
  else if format = Format.TF_TRT ∧ precision.isSome then
    .ok ⟨path_str, "model.savedmodel"⟩
  else if format = Format.TENSORRT ∧ precision.isSome then
    .ok ⟨path_str, "model.plan"⟩
  else
    .error "No model path found for format, jit_type, precision; provide valid arguments or implement this method in your Command."

/-- True exactly when the resolver raised (the Python function threw). -/
def raisesError (e : Except String RelPath) : Bool :=
  match e with
  | .error _ => true
  | .ok _ => false

/-- Spec-side description of the fixed filename per format family
(claim wording: model.onnx for ONNX, model.pt for TORCHSCRIPT/TORCH_TRT,
model.savedmodel for TF_SAVEDMODEL/TF_TRT, model.plan for TENSORRT). -/
def familyFilename : Format → String
  | .ONNX => "model.onnx"
  | .TORCHSCRIPT => "model.pt"
  | .TORCH_TRT => "model.pt"
  | .TF_SAVEDMODEL => "model.savedmodel"
  | .TF_TRT => "model.savedmodel"
  | .TENSORRT => "model.plan"

/-! ### Python values and parse_kwargs_to_cmd (utils.py lines 345-352) -/

/-- A Python value as passed in the kwargs of a convert command: scalar
strings, integers, booleans, None, and the structured containers list,
tuple and dict. -/
inductive PyVal where
  | pstr (s : String)
  | pint (n : Int)
  | pbool (b : Bool)
  | pnone
  | plist (xs : List PyVal)
  | ptuple (xs : List PyVal)
  | pdict (kvs : List (String × PyVal))

mutual

/-- Python repr of a value (strings quoted; containers render elements
with repr, a one-element tuple gets a trailing comma). -/
def pyRepr : PyVal → String
  | .pstr s => "\x27" ++ s ++ "\x27"
  | .pint n => toString n
  | .pbool b => if b then "True" else "False"
  | .pnone => "None"
  | .plist xs => "[" ++ pyReprList xs ++ "]"
  | .ptuple [x] => "(" ++ pyRepr x ++ ",)"
  | .ptuple xs => "(" ++ pyReprList xs ++ ")"
  | .pdict kvs => "\x7b" ++ pyReprDict kvs ++ "\x7d"

def pyReprList : List PyVal → String
  | [] => ""
  | [x] => pyRepr x
  | x :: xs => pyRepr x ++ ", " ++ pyReprList xs

def pyReprDict : List (String × PyVal) → String
  | [] => ""
  | [kv] => "\x27" ++ kv.1 ++ "\x27: " ++ pyRepr kv.2
  | kv :: kvs => "\x27" ++ kv.1 ++ "\x27: " ++ pyRepr kv.2 ++ ", " ++ pyReprDict kvs

end

/-- Python str() of a value: a string renders as itself, anything else as
its repr. -/
def pyStr : PyVal → String
  | .pstr s => s
  | v => pyRepr v

/-- Single-character replacement, the effect of Python
str.replace(single-char pattern, single-char replacement). -/
def pyCharReplace (s : String) (pat repl : Char) : String :=
  ⟨s.data.map (fun ch => if ch = pat then repl else ch)⟩

/-- The isinstance check against the quote_wrap_classes tuple
(list, dict, tuple) that ConvertSavedModel2TFTRT passes at its call site
(commands/convert/tf.py line 157). -/
def callSiteQuoteWrap : PyVal → Bool
  | .plist _ => true
  | .pdict _ => true
  | .ptuple _ => true
  | _ => false

/-- Spec-side notion of a structured value: a list, tuple, or mapping. -/
def isStructured : PyVal → Bool
  | .plist _ => true
  | .ptuple _ => true
  | .pdict _ => true
  | _ => false

/-- parse_kwargs_to_cmd (utils.py lines 345-352): for each key/value pair,
in order, emit the flag "--<key>" and then str(value) with every single
quote replaced by a double quote, wrapped in single quotes when the value
is an instance of one of the quote_wrap_classes. -/
def parse_kwargs_to_cmd (kwargs : List (String × PyVal))
    (quoteWrap : PyVal → Bool) : List String :=
  kwargs.flatMap (fun kv =>
    let s := pyCharReplace (pyStr kv.2) '\x27' '\x22'
    ["--" ++ kv.1, if quoteWrap kv.2 then "\x27" ++ s ++ "\x27" else s])

/-! ### Tensors, samples, validation and extraction (utils.py) -/

/-- The runtime class of a tensor-like object. -/
inductive TensorKind where
  | torchTensor
  | tfTensor
  | ndarray
deriving DecidableEq, Repr, Fintype

/-- A tensor-like object: its runtime class and an opaque payload
standing for the numeric contents. -/
structure Tensor where
  kind : TensorKind
  data : Nat
deriving DecidableEq, Repr

/-- to_numpy (utils.py lines 154-160): a numpy array is returned as-is;
a PyTorch tensor goes through detach/cpu/numpy, anything else through
its numpy() method.  Either conversion yields a numpy array carrying the
same contents. -/
def to_numpy (tensor : Tensor) (from_framework : Framework) : Tensor :=
  if tensor.kind = .ndarray then tensor
  else if from_framework = .PYT then ⟨.ndarray, tensor.data⟩
  else ⟨.ndarray, tensor.data⟩

/-- A Python object that may appear as a leaf of a sample: a tensor-like
object or anything else (tagged so distinct non-tensors exist). -/
inductive PyObj where
  | tensor (t : Tensor)
  | nonTensor (tag : Nat)
deriving DecidableEq, Repr

/-- is_tensor (utils.py lines 257-267): under PYT a torch tensor or numpy
array, under TF2 a tensorflow tensor or numpy array, otherwise only a
numpy array. -/
def is_tensor (obj : PyObj) (framework : Framework) : Bool :=
  match obj with
  | .nonTensor _ => false
  | .tensor t =>
    match framework with
    | .PYT => t.kind == .torchTensor || t.kind == .ndarray
    | .TF2 => t.kind == .tfTensor || t.kind == .ndarray
    | _ => t.kind == .ndarray

/-- get_tensor_type_name (utils.py lines 270-276). -/
def get_tensor_type_name (framework : Framework) : String :=
  if framework = .PYT then "Union[torch.Tensor, numpy.ndarray]"
  else if framework = .TF2 then "Union[tensorflow.Tensor, numpy.ndarray]"
  else "numpy.ndarray"

/-- A sample as the isinstance dispatch of the source classifies it:
a single object (the is_tensor branch, or a scalar that matches none of
the container checks), a Mapping, or a non-mapping Sequence/Iterable.
Leaves have type alpha. -/
inductive SampleVal (α : Type) where
  | single (x : α)
  | mapping (kvs : List (String × α))
  | iterable (xs : List α)
deriving DecidableEq, Repr

/-- The helper named with a leading underscore in the source,
_is_valid_io (utils.py lines 279-292): a lone tensor, a Mapping whose
every value is a tensor, or an Iterable whose every element is a tensor. -/
def is_valid_io (sample : SampleVal PyObj) (framework : Framework) : Bool :=
  match sample with
  | .single obj => is_tensor obj framework
  | .mapping kvs => kvs.all (fun kv => is_tensor kv.2 framework)
  | .iterable xs => xs.all (fun t => is_tensor t framework)

/-- The UserError message of validate_sample_input (the f-string rendering
of the offending sample is omitted). -/
def invalidSampleMsg (framework : Framework) : String :=
  "Invalid sample type. Sample must be a tensor of type " ++
    get_tensor_type_name framework ++
    ", an Iterable of such tensors, or a Mapping of names to such tensors."

/-- The UserError message of validate_sample_output. -/
def invalidOutputMsg (framework : Framework) : String :=
  "Invalid model output type. Output must be a tensor of type " ++
    get_tensor_type_name framework ++
    ", an Iterable of such tensors, or a Mapping of names to such tensors."

/-- validate_sample_input (utils.py lines 295-301): raises UserError when
the sample fails the shape check, otherwise falls through (returns None). -/
def validate_sample_input (sample : SampleVal PyObj) (framework : Framework) :
    Except String Unit :=
  if is_valid_io sample framework = false then
    .error (invalidSampleMsg framework)
  else
    .ok ()

/-- validate_sample_output (utils.py lines 304-310): same check, worded
for model outputs. -/
def validate_sample_output (sample : SampleVal PyObj) (framework : Framework) :
    Except String Unit :=
  if is_valid_io sample framework = false then
    .error (invalidOutputMsg framework)
  else
    .ok ()

/-- Spec-side predicate, worded as claim C8 words the three accepted
shapes: a single recognized tensor, a Mapping whose every value is such a
tensor, or an Iterable whose every element is such a tensor. -/
def recognizedSampleShape (sample : SampleVal PyObj) (framework : Framework) : Prop :=
  (∃ obj, sample = .single obj ∧ is_tensor obj framework = true) ∨
  (∃ kvs, sample = .mapping kvs ∧ ∀ kv ∈ kvs, is_tensor kv.2 framework = true) ∨
  (∃ xs, sample = .iterable xs ∧ ∀ t ∈ xs, is_tensor t framework = true)

/-- sample_to_tuple (utils.py lines 206-211): a Sequence is tupled as-is,
a Mapping contributes its values in iteration order, anything else
becomes a one-element tuple. -/
def sample_to_tuple {α : Type} (input : SampleVal α) : List α :=
  match input with
  | .iterable xs => xs
  | .mapping kvs => kvs.map Prod.snd
  | .single x => [x]

/-- extract_sample (utils.py lines 214-217): tuple the sample and zip it
positionally with input_metadata (an ordered list of canonical input
names), converting each tensor to numpy. -/
def extract_sample (sample : SampleVal Tensor) (input_metadata : List String)
    (framework : Framework) : List (String × Tensor) :=
  let tup := sample_to_tuple sample
  (input_metadata.zip tup).map (fun nt => (nt.1, to_numpy nt.2 framework))

/-! ### Convert commands (commands/convert/tf.py) -/

/-- The observable world a convert command's __call__ reads: the GPU ids
devices.get_available_gpus() reports and the set of filesystem paths that
exist. -/
structure World where
  available_gpus : List Nat
  files : List String
deriving DecidableEq, Repr

/-- workdir / relative-path joining (pathlib `/`). -/
def pathJoin (workdir : String) (rel : RelPath) : String :=
  workdir ++ "/" ++ rel.dir ++ "/" ++ rel.file

/-- How a __call__ ends: a returned value (the produced relative path, or
None) or a raised exception. -/
inductive CallResult where
  | returned (p : Option RelPath)
  | raised (msg : String)
deriving DecidableEq, Repr

/-- The outcome of one __call__: its result, any assignment the body made
to self.status, and whether the external conversion was executed. -/
structure CallOutcome where
  result : CallResult
  status : Option Status
  ranConversion : Bool
deriving DecidableEq, Repr

/-- The exported SavedModel input artifact path both convert commands
resolve (tf.py lines 53-57 and 125-129): the TF_SAVEDMODEL branch of
format_to_relative_model_path with the command's xla/jit-compile flags. -/
def tfExportedInputRel (enable_xla jit_compile : Option Bool) : RelPath :=
  ⟨pathDirName .TF_SAVEDMODEL none none enable_xla jit_compile, "model.savedmodel"⟩

/-- ConvertSavedModel2ONNX's constructor parameters (tf.py lines 29-42). -/
structure ConvertSavedModel2ONNX where
  enable_xla : Option Bool
  jit_compile : Option Bool
deriving DecidableEq, Repr

/-- Modelled from the spec: ConvertBase.get_output_relative_path (the base
class is not in the excerpt) resolves the command's target format and
variant parameters through the artifact path resolver of spec section 4.4;
for target Format.ONNX that is the ONNX branch of
format_to_relative_model_path. -/
def ConvertSavedModel2ONNX.get_output_relative_path
    (c : ConvertSavedModel2ONNX) : RelPath :=
  ⟨pathDirName .ONNX none none c.enable_xla c.jit_compile, "model.onnx"⟩

/-- ConvertSavedModel2ONNX.__call__ (tf.py lines 44-88): resolve the
exported SavedModel path and the converted path; on a cache hit return the
output relative path; if the exported input is missing set status SKIPPED
and return None; otherwise run the tf2onnx conversion and return the
output relative path.  The opset/model_name/verbose arguments only shape
the external command line, abstracted into ranConversion. -/
def ConvertSavedModel2ONNX.call (c : ConvertSavedModel2ONNX)
    (workdir : String) (w : World) : CallOutcome :=
  match format_to_relative_model_path .TF_SAVEDMODEL none none
      c.enable_xla c.jit_compile with
  | .error e => ⟨.raised e, none, false⟩
  | .ok exportedRel =>
    let exported_model_path := pathJoin workdir exportedRel
    let converted_model_path := pathJoin workdir c.get_output_relative_path
    if converted_model_path ∈ w.files then
      ⟨.returned (some c.get_output_relative_path), none, false⟩
    else if exported_model_path ∉ w.files then
      ⟨.returned none, some .SKIPPED, false⟩
    else
      ⟨.returned (some c.get_output_relative_path), none, true⟩

/-- ConvertSavedModel2TFTRT's constructor parameters (tf.py lines 91-109). -/
structure ConvertSavedModel2TFTRT where
  target_precision : TensorRTPrecision
  enable_xla : Option Bool
  jit_compile : Option Bool
deriving DecidableEq, Repr

/-- Modelled from the spec: the TF-TRT command's output artifact path via
the artifact path resolver (spec section 4.4), the TF_TRT-with-precision
branch of format_to_relative_model_path. -/
def ConvertSavedModel2TFTRT.get_output_relative_path
    (c : ConvertSavedModel2TFTRT) : RelPath :=
  ⟨pathDirName .TF_TRT none (some c.target_precision) c.enable_xla c.jit_compile,
   "model.savedmodel"⟩

/-- ConvertSavedModel2TFTRT.__call__ (tf.py lines 111-161): first raises
RuntimeError when devices.get_available_gpus() is empty; then resolves
paths (and mkdirs the output directory, a side effect not tracked here);
then the same cache-hit / missing-input / convert ladder as the ONNX
converter, the conversion running through an external script whose
argument serialization is abstracted into ranConversion. -/
def ConvertSavedModel2TFTRT.call (c : ConvertSavedModel2TFTRT)
    (workdir : String) (w : World) : CallOutcome :=
  if w.available_gpus = [] then
    ⟨.raised "No GPUs available.", none, false⟩
  else
    match format_to_relative_model_path .TF_SAVEDMODEL none none
        c.enable_xla c.jit_compile with
    | .error e => ⟨.raised e, none, false⟩
    | .ok exportedRel =>
      let exported_model_path := pathJoin workdir exportedRel
      let converted_model_path := pathJoin workdir c.get_output_relative_path
      if converted_model_path ∈ w.files then
        ⟨.returned (some c.get_output_relative_path), none, false⟩
      else if exported_model_path ∉ w.files then
        ⟨.returned none, some .SKIPPED, false⟩
      else
        ⟨.returned (some c.get_output_relative_path), none, true⟩

/-! ### The PyTorch pipeline builder (pipelines/pipeline_manager_pyt.py) -/

/-- The command classes TorchPipelineManager._get_pipeline instantiates,
with the per-instance parameters passed at the construction sites. -/
inductive CmdKind where
  | inferInputMetadata
  | fetchInputModelData
  | inferOutputMetadata
  | exportPYT2TorchScript (jit : JitType)
  | correctnessPYT2TorchScript (target_format : Format) (jit : JitType)
  | performanceTorchScript (target_format : Format) (jit : JitType)
  | configCli (target_format : Format) (jit : Option JitType)
      (precision : Option TensorRTPrecision)
  | exportPYT2ONNX
  | correctnessPYT2ONNX (provider : RuntimeProvider)
  | performanceONNX (provider : RuntimeProvider)
  | exportPYT2TorchTensorRT (jit : JitType)
  | convertONNX2TRT (precision : TensorRTPrecision)
  | correctnessPYT2TRT (precision : TensorRTPrecision)
  | performanceTRT (precision : TensorRTPrecision)
  | dumpInputModelData
  | dumpOutputModelData
deriving DecidableEq, Repr

/-- A Command instance: its class/parameters and its requires tuple.  In
_get_pipeline every command class is instantiated with at most one
parameter combination per pipeline, so structural equality coincides with
the Python object identity the requires tuples rely on. -/
inductive Cmd where
  | mk (kind : CmdKind) (requires : List Cmd)

def Cmd.kind : Cmd → CmdKind
  | .mk k _ => k

def Cmd.requires : Cmd → List Cmd
  | .mk _ r => r

/-- The user configuration fields _get_pipeline reads. -/
structure Config where
  target_formats : List Format
  target_jit_type : List JitType
  target_precisions : List TensorRTPrecision
  save_data : Bool

def inferInputCmd : Cmd := .mk .inferInputMetadata []

def fetchInputCmd : Cmd := .mk .fetchInputModelData [inferInputCmd]

def inferOutputCmd : Cmd := .mk .inferOutputMetadata [inferInputCmd, fetchInputCmd]

/-- The single ExportPYT2ONNX instance either ONNX branch creates
(pipeline_manager_pyt.py line 68 or line 95): the two construction sites
pass identical arguments. -/
def onnxExportCmd : Cmd :=
  .mk .exportPYT2ONNX [inferInputCmd, fetchInputCmd, inferOutputCmd]

/-- The provider sweep of both ONNX branches (lines 70 and 97). -/
def onnxProviders : List RuntimeProvider := [.CUDA, .TRT, .CPU]

/-- One iteration of the TORCHSCRIPT jit loop (lines 49-66). -/
def torchscriptBlock (j : JitType) : List Cmd :=
  let e := Cmd.mk (.exportPYT2TorchScript j) [inferInputCmd, fetchInputCmd, inferOutputCmd]
  [e,
   .mk (.correctnessPYT2TorchScript .TORCHSCRIPT j) [e],
   .mk (.performanceTorchScript .TORCHSCRIPT j) [e],
   .mk (.configCli .TORCHSCRIPT (some j) none) [e]]

/-- The ONNX target-format branch (lines 67-73). -/
def onnxBranchCmds : List Cmd :=
  onnxExportCmd ::
    (onnxProviders.flatMap fun p =>
      [Cmd.mk (.correctnessPYT2ONNX p) [onnxExportCmd],
       Cmd.mk (.performanceONNX p) [onnxExportCmd]])
    ++ [Cmd.mk (.configCli .ONNX none none) [onnxExportCmd]]

/-- One iteration of the TORCH_TRT jit loop (lines 74-92). -/
def torchTrtBlock (j : JitType) : List Cmd :=
  let e := Cmd.mk (.exportPYT2TorchTensorRT j) [inferInputCmd, fetchInputCmd, inferOutputCmd]
  [e,
   .mk (.correctnessPYT2TorchScript .TORCH_TRT j) [e],
   .mk (.performanceTorchScript .TORCH_TRT j) [e],
   .mk (.configCli .TORCH_TRT (some j) none) [e]]

/-- The implicit ONNX export the TENSORRT branch inserts when ONNX was not
itself requested (lines 94-99); note it adds no ConfigCli. -/
def tensorrtOnnxCmds : List Cmd :=
  onnxExportCmd ::
    onnxProviders.flatMap fun p =>
      [Cmd.mk (.correctnessPYT2ONNX p) [onnxExportCmd],
       Cmd.mk (.performanceONNX p) [onnxExportCmd]]

/-- One iteration of the TENSORRT precision loop (lines 100-107). -/
def tensorrtPrecBlock (pr : TensorRTPrecision) : List Cmd :=
  let conv := Cmd.mk (.convertONNX2TRT pr) [onnxExportCmd]
  [conv,
   .mk (.correctnessPYT2TRT pr) [conv],
   .mk (.performanceTRT pr) [conv],
   .mk (.configCli .TENSORRT none (some pr)) [conv]]

/-- TorchPipelineManager._get_pipeline (lines 43-112): the command list of
the returned Pipeline, block by block in the source's append order. -/
def torchGetPipeline (cfg : Config) : List Cmd :=
  [inferInputCmd, fetchInputCmd, inferOutputCmd]
  ++ (if Format.TORCHSCRIPT ∈ cfg.target_formats then
        cfg.target_jit_type.flatMap torchscriptBlock
      else [])
  ++ (if Format.ONNX ∈ cfg.target_formats then onnxBranchCmds else [])
  ++ (if Format.TORCH_TRT ∈ cfg.target_formats then
        cfg.target_jit_type.flatMap torchTrtBlock
      else [])
  ++ (if Format.TENSORRT ∈ cfg.target_formats then
        (if Format.ONNX ∉ cfg.target_formats then tensorrtOnnxCmds else [])
        ++ cfg.target_precisions.flatMap tensorrtPrecBlock
      else [])
  ++ (if cfg.save_data then
        [Cmd.mk .dumpInputModelData [inferInputCmd, fetchInputCmd],
         Cmd.mk .dumpOutputModelData [fetchInputCmd, inferOutputCmd]]
      else [])

/-- Recognizer for the ExportPYT2ONNX command class. -/
def isExportONNX (c : Cmd) : Bool :=
  match c.kind with
  | .exportPYT2ONNX => true
  | _ => false

/-- Recognizer for the ConvertONNX2TRT command class. -/
def isConvertTRT (c : Cmd) : Bool :=
  match c.kind with
  | .convertONNX2TRT _ => true
  | _ => false

/-- Modelled from the spec: the command classes whose command_type is
CommandType.CORRECTNESS (spec section 3; the in-excerpt
CorrectnessONNX2TRT in commands/correctness/onnx.py fixes the pattern for
the Correctness classes). -/
def isCorrectnessCmd (c : Cmd) : Bool :=
  match c.kind with
  | .correctnessPYT2TorchScript _ _ => true
  | .correctnessPYT2ONNX _ => true
  | .correctnessPYT2TRT _ => true
  | _ => false

/-- Modelled from the spec: the command classes whose command_type is
CommandType.PERFORMANCE (spec section 3). -/
def isPerformanceCmd (c : Cmd) : Bool :=
  match c.kind with
  | .performanceTorchScript _ _ => true
  | .performanceONNX _ => true
  | .performanceTRT _ => true
  | _ => false

/-- Spec-side directory name, worded as claim C5 words it: the format
value followed by the optional suffixes in the fixed order
-<jit-variant>, -xla, -jit, -<precision>. -/
def specDirName (format : Format) (jt : Option JitType) (pr : Option TensorRTPrecision)
    (xla jc : Option Bool) : String :=
  format.value
  ++ (match jt with | some j => "-" ++ j.value | none => "")
  ++ (if xla = some true then "-xla" else "")
  ++ (if jc = some true then "-jit" else "")
  ++ (match pr with | some p => "-" ++ p.value | none => "")

/-- Boolean check that a successful path resolution agrees with the
spec-side directory name and per-family filename. -/
def resolverDirFileAgree (format : Format) (jt : Option JitType)
    (pr : Option TensorRTPrecision) (xla jc : Option Bool) : Bool :=
  match format_to_relative_model_path format jt pr xla jc with
  | .ok rp => rp.dir == specDirName format jt pr xla jc && rp.file == familyFilename format
  | .error _ => true

/-! ## Shared lemmas -/

theorem countP_flatMap_zero {α β : Type} (p : β → Bool) (f : α → List β)
    (h : ∀ a, (f a).countP p = 0) (l : List α) : (l.flatMap f).countP p = 0 := by
  rw [List.countP_eq_zero]
  intro b hb
  rw [List.mem_flatMap] at hb
  obtain ⟨a, _, hbf⟩ := hb
  exact (List.countP_eq_zero.mp (h a)) b hbf

theorem mem_of_mem_ite {α : Type} {P : Prop} [Decidable P] {l : List α} {c : α}
    (h : c ∈ if P then l else []) : c ∈ l := by
  split at h
  · exact h
  · exact absurd h (List.not_mem_nil c)

/-- Any member of the built pipeline lies in one of the source's seven
construction sites. -/
theorem torchGetPipeline_mem_cases (cfg : Config) (c : Cmd) (hc : c ∈ torchGetPipeline cfg) :
    c ∈ ([inferInputCmd, fetchInputCmd, inferOutputCmd] : List Cmd)
    ∨ (∃ j, c ∈ torchscriptBlock j)
    ∨ c ∈ onnxBranchCmds
    ∨ (∃ j, c ∈ torchTrtBlock j)
    ∨ c ∈ tensorrtOnnxCmds
    ∨ (∃ pr, c ∈ tensorrtPrecBlock pr)
    ∨ c ∈ ([Cmd.mk .dumpInputModelData [inferInputCmd, fetchInputCmd],
            Cmd.mk .dumpOutputModelData [fetchInputCmd, inferOutputCmd]] : List Cmd) := by
  unfold torchGetPipeline at hc
  simp only [List.mem_append] at hc
  rcases hc with ((((h1 | h2) | h3) | h4) | h5) | h6
  · exact Or.inl h1
  · obtain ⟨j, _, hj⟩ := List.mem_flatMap.mp (mem_of_mem_ite h2)
    exact Or.inr (Or.inl ⟨j, hj⟩)
  · exact Or.inr (Or.inr (Or.inl (mem_of_mem_ite h3)))
  · obtain ⟨j, _, hj⟩ := List.mem_flatMap.mp (mem_of_mem_ite h4)
    exact Or.inr (Or.inr (Or.inr (Or.inl ⟨j, hj⟩)))
  · have h5' := mem_of_mem_ite h5
    rw [List.mem_append] at h5'
    rcases h5' with h5a | h5b
    · exact Or.inr (Or.inr (Or.inr (Or.inr (Or.inl (mem_of_mem_ite h5a)))))
    · obtain ⟨pr, _, hp⟩ := List.mem_flatMap.mp h5b
      exact Or.inr (Or.inr (Or.inr (Or.inr (Or.inr (Or.inl ⟨pr, hp⟩)))))
  · exact Or.inr (Or.inr (Or.inr (Or.inr (Or.inr (Or.inr (mem_of_mem_ite h6))))))

/-- The TF_SAVEDMODEL branch of the path resolver always succeeds with
the exported-input path. -/
theorem fmt_tf_savedmodel (xla jc : Option Bool) :
    format_to_relative_model_path .TF_SAVEDMODEL none none xla jc
      = .ok (tfExportedInputRel xla jc) := rfl

/-- The call site's quote_wrap_classes isinstance check recognizes exactly
the structured values. -/
theorem quoteWrap_eq_isStructured (v : PyVal) : callSiteQuoteWrap v = isStructured v := by
  cases v <;> rfl

/-- The successful-resolution check of resolverDirFileAgree holds on the
whole finite input domain. -/
theorem resolverDirFileAgree_eval :
    ∀ format jt pr xla jc, resolverDirFileAgree format jt pr xla jc = true := by
  decide

theorem map_fst_zip_take {α β : Type} : ∀ (l : List α) (l2 : List β),
    (l.zip l2).map Prod.fst = l.take l2.length
  | [], _ => by simp
  | _ :: _, [] => by simp
  | a :: l, b :: l2 => by simp [map_fst_zip_take l l2]

/-! ## Claim theorems -/

/-- Claim C1: in the pipeline built by TorchPipelineManager._get_pipeline,
if Format.TENSORRT is among the target formats, the command list contains
exactly one ExportPYT2ONNX command — whether or not Format.ONNX was also
requested — every command of that class in the list is the single
onnxExportCmd instance, and every ConvertONNX2TRT command's requires tuple
is exactly that instance. -/
theorem tensorrt_single_onnx_export (cfg : Config)
    (h : Format.TENSORRT ∈ cfg.target_formats) :
    (torchGetPipeline cfg).countP isExportONNX = 1
    ∧ (∀ c ∈ torchGetPipeline cfg, isExportONNX c = true → c = onnxExportCmd)
    ∧ (∀ c ∈ torchGetPipeline cfg, isConvertTRT c = true → c.requires = [onnxExportCmd]) := by
  refine ⟨?_, ?_, ?_⟩
  · unfold torchGetPipeline
    rw [if_pos h]
    simp only [List.countP_append]
    have hts : (if Format.TORCHSCRIPT ∈ cfg.target_formats then
        cfg.target_jit_type.flatMap torchscriptBlock else []).countP isExportONNX = 0 := by
      split
      · exact countP_flatMap_zero isExportONNX torchscriptBlock (fun j => rfl) cfg.target_jit_type
      · rfl
    have htt : (if Format.TORCH_TRT ∈ cfg.target_formats then
        cfg.target_jit_type.flatMap torchTrtBlock else []).countP isExportONNX = 0 := by
      split
      · exact countP_flatMap_zero isExportONNX torchTrtBlock (fun j => rfl) cfg.target_jit_type
      · rfl
    have hsv : (if cfg.save_data then
        [Cmd.mk .dumpInputModelData [inferInputCmd, fetchInputCmd],
         Cmd.mk .dumpOutputModelData [fetchInputCmd, inferOutputCmd]] else []).countP
          isExportONNX = 0 := by
      split <;> rfl
    have hpr : (cfg.target_precisions.flatMap tensorrtPrecBlock).countP isExportONNX = 0 :=
      countP_flatMap_zero isExportONNX tensorrtPrecBlock (fun p => rfl) cfg.target_precisions
    rw [hts, htt, hsv, hpr]
    by_cases h2 : Format.ONNX ∈ cfg.target_formats
    · rw [if_pos h2, if_neg (not_not_intro h2)]
      decide
    · rw [if_neg h2, if_pos h2]
      decide
  · intro c hc hx
    rcases torchGetPipeline_mem_cases cfg c hc with h1 | ⟨j, h1⟩ | h1 | ⟨j, h1⟩ | h1 | ⟨pr, h1⟩ | h1
    · simp only [List.mem_cons, List.not_mem_nil, or_false] at h1
      rcases h1 with rfl | rfl | rfl <;> exact Bool.noConfusion hx
    · simp only [torchscriptBlock, List.mem_cons, List.not_mem_nil, or_false] at h1
      rcases h1 with rfl | rfl | rfl | rfl <;> exact Bool.noConfusion hx
    · simp only [onnxBranchCmds, onnxProviders, List.flatMap_cons, List.flatMap_nil,
        List.append_nil, List.cons_append, List.nil_append, List.mem_cons,
        List.not_mem_nil, or_false] at h1
      rcases h1 with rfl | rfl | rfl | rfl | rfl | rfl | rfl | rfl
      · rfl
      all_goals exact Bool.noConfusion hx
    · simp only [torchTrtBlock, List.mem_cons, List.not_mem_nil, or_false] at h1
      rcases h1 with rfl | rfl | rfl | rfl <;> exact Bool.noConfusion hx
    · simp only [tensorrtOnnxCmds, onnxProviders, List.flatMap_cons, List.flatMap_nil,
        List.append_nil, List.cons_append, List.nil_append, List.mem_cons,
        List.not_mem_nil, or_false] at h1
      rcases h1 with rfl | rfl | rfl | rfl | rfl | rfl | rfl
      · rfl
      all_goals exact Bool.noConfusion hx
    · simp only [tensorrtPrecBlock, List.mem_cons, List.not_mem_nil, or_false] at h1
      rcases h1 with rfl | rfl | rfl | rfl <;> exact Bool.noConfusion hx
    · simp only [List.mem_cons, List.not_mem_nil, or_false] at h1
      rcases h1 with rfl | rfl <;> exact Bool.noConfusion hx
  · intro c hc hx
    rcases torchGetPipeline_mem_cases cfg c hc with h1 | ⟨j, h1⟩ | h1 | ⟨j, h1⟩ | h1 | ⟨pr, h1⟩ | h1
    · simp only [List.mem_cons, List.not_mem_nil, or_false] at h1
      rcases h1 with rfl | rfl | rfl <;> exact Bool.noConfusion hx
    · simp only [torchscriptBlock, List.mem_cons, List.not_mem_nil, or_false] at h1
      rcases h1 with rfl | rfl | rfl | rfl <;> exact Bool.noConfusion hx
    · simp only [onnxBranchCmds, onnxProviders, List.flatMap_cons, List.flatMap_nil,
        List.append_nil, List.cons_append, List.nil_append, List.mem_cons,
        List.not_mem_nil, or_false] at h1
      rcases h1 with rfl | rfl | rfl | rfl | rfl | rfl | rfl | rfl <;> exact Bool.noConfusion hx
    · simp only [torchTrtBlock, List.mem_cons, List.not_mem_nil, or_false] at h1
      rcases h1 with rfl | rfl | rfl | rfl <;> exact Bool.noConfusion hx
    · simp only [tensorrtOnnxCmds, onnxProviders, List.flatMap_cons, List.flatMap_nil,
        List.append_nil, List.cons_append, List.nil_append, List.mem_cons,
        List.not_mem_nil, or_false] at h1
      rcases h1 with rfl | rfl | rfl | rfl | rfl | rfl | rfl <;> exact Bool.noConfusion hx
    · simp only [tensorrtPrecBlock, List.mem_cons, List.not_mem_nil, or_false] at h1
      rcases h1 with rfl | rfl | rfl | rfl
      · rfl
      all_goals exact Bool.noConfusion hx
    · simp only [List.mem_cons, List.not_mem_nil, or_false] at h1
      rcases h1 with rfl | rfl <;> exact Bool.noConfusion hx

/-- Claim C1 witness: the property at the concrete configuration
requesting only TENSORRT at FP16. -/
theorem tensorrt_single_onnx_export_witness :
    Format.TENSORRT ∈ (Config.mk [.TENSORRT] [] [.FP16] false).target_formats
    ∧ ((torchGetPipeline ⟨[.TENSORRT], [], [.FP16], false⟩).countP isExportONNX = 1
      ∧ (∀ c ∈ torchGetPipeline ⟨[.TENSORRT], [], [.FP16], false⟩,
          isExportONNX c = true → c = onnxExportCmd)
      ∧ (∀ c ∈ torchGetPipeline ⟨[.TENSORRT], [], [.FP16], false⟩,
          isConvertTRT c = true → c.requires = [onnxExportCmd])) :=
  ⟨by decide, tensorrt_single_onnx_export ⟨[.TENSORRT], [], [.FP16], false⟩ (by decide)⟩

/-- Claim C2 counterexample: with no GPUs available, the TF-TRT converter
raises RuntimeError even though the converted output artifact already
exists on disk, so __call__ does not return the existing output path. -/
theorem convert_cache_hit_unconditional_cex :
    pathJoin "navigator_workdir"
        (ConvertSavedModel2TFTRT.get_output_relative_path ⟨.FP16, none, none⟩)
      ∈ (World.mk [] ["navigator_workdir/tf-trt-fp16/model.savedmodel"]).files
    ∧ ConvertSavedModel2TFTRT.call ⟨.FP16, none, none⟩ "navigator_workdir"
        ⟨[], ["navigator_workdir/tf-trt-fp16/model.savedmodel"]⟩
      = ⟨.raised "No GPUs available.", none, false⟩
    ∧ (ConvertSavedModel2TFTRT.call ⟨.FP16, none, none⟩ "navigator_workdir"
        ⟨[], ["navigator_workdir/tf-trt-fp16/model.savedmodel"]⟩).result
      ≠ .returned (some (ConvertSavedModel2TFTRT.get_output_relative_path ⟨.FP16, none, none⟩)) :=
  ⟨by decide, by decide, by decide⟩

/-- Claim C2 (amended): when the canonical output artifact exists,
ConvertSavedModel2ONNX.__call__ short-circuits unconditionally, and
ConvertSavedModel2TFTRT.__call__ short-circuits provided at least one GPU
is available; both return the existing output relative path without
executing the external conversion. -/
theorem convert_cache_hit_short_circuit :
    (∀ (c : ConvertSavedModel2ONNX) (workdir : String) (w : World),
      pathJoin workdir c.get_output_relative_path ∈ w.files →
      c.call workdir w = ⟨.returned (some c.get_output_relative_path), none, false⟩)
    ∧ (∀ (c : ConvertSavedModel2TFTRT) (workdir : String) (w : World),
      w.available_gpus ≠ [] →
      pathJoin workdir c.get_output_relative_path ∈ w.files →
      c.call workdir w = ⟨.returned (some c.get_output_relative_path), none, false⟩) := by
  constructor
  · intro c wd w hmem
    unfold ConvertSavedModel2ONNX.call
    simp only [fmt_tf_savedmodel]
    rw [if_pos hmem]
  · intro c wd w hgpu hmem
    unfold ConvertSavedModel2TFTRT.call
    rw [if_neg hgpu]
    simp only [fmt_tf_savedmodel]
    rw [if_pos hmem]

/-- Claim C2 witness: both cache-hit short-circuits at concrete worlds. -/
theorem convert_cache_hit_short_circuit_witness :
    ConvertSavedModel2ONNX.call ⟨none, none⟩ "w" ⟨[], ["w/onnx/model.onnx"]⟩
      = ⟨.returned (some ⟨"onnx", "model.onnx"⟩), none, false⟩
    ∧ ConvertSavedModel2TFTRT.call ⟨.FP16, none, none⟩ "w"
        ⟨[0], ["w/tf-trt-fp16/model.savedmodel"]⟩
      = ⟨.returned (some ⟨"tf-trt-fp16", "model.savedmodel"⟩), none, false⟩ := by
  constructor
  · exact (convert_cache_hit_short_circuit.1 ⟨none, none⟩ "w"
      ⟨[], ["w/onnx/model.onnx"]⟩ (by decide)).trans (by decide)
  · exact (convert_cache_hit_short_circuit.2 ⟨.FP16, none, none⟩ "w"
      ⟨[0], ["w/tf-trt-fp16/model.savedmodel"]⟩ (by decide) (by decide)).trans (by decide)

/-- Claim C3 counterexample: the configuration requesting only the
intermediate format ONNX yields a pipeline whose CORRECTNESS and
PERFORMANCE command counts are not both zero. -/
theorem onnx_only_pipeline_checks_cex :
    ¬ ((torchGetPipeline ⟨[.ONNX], [], [], false⟩).countP isCorrectnessCmd = 0
      ∧ (torchGetPipeline ⟨[.ONNX], [], [], false⟩).countP isPerformanceCmd = 0) := by
  decide

/-- Claim C3 (amended): a PyTorch-pipeline configuration whose
target_formats is exactly [ONNX] yields a pipeline with exactly three
CORRECTNESS and three PERFORMANCE commands (one per ONNX runtime
provider), for every setting of the remaining configuration fields. -/
theorem onnx_only_pipeline_check_counts (jits : List JitType)
    (precs : List TensorRTPrecision) (sd : Bool) :
    (torchGetPipeline ⟨[.ONNX], jits, precs, sd⟩).countP isCorrectnessCmd = 3
    ∧ (torchGetPipeline ⟨[.ONNX], jits, precs, sd⟩).countP isPerformanceCmd = 3 := by
  cases sd <;> exact ⟨rfl, rfl⟩

/-- Claim C4 counterexample: with no GPUs available and both artifacts
absent, the TF-TRT converter raises RuntimeError instead of setting
status SKIPPED. -/
theorem convert_missing_input_skip_cex :
    pathJoin "navigator_workdir"
        (ConvertSavedModel2TFTRT.get_output_relative_path ⟨.INT8, none, none⟩)
      ∉ (World.mk [] []).files
    ∧ pathJoin "navigator_workdir" (tfExportedInputRel none none) ∉ (World.mk [] []).files
    ∧ ConvertSavedModel2TFTRT.call ⟨.INT8, none, none⟩ "navigator_workdir" ⟨[], []⟩
      = ⟨.raised "No GPUs available.", none, false⟩
    ∧ (ConvertSavedModel2TFTRT.call ⟨.INT8, none, none⟩ "navigator_workdir" ⟨[], []⟩).status
      ≠ some .SKIPPED :=
  ⟨by decide, by decide, by decide, by decide⟩

/-- Claim C4 (amended): when the canonical output artifact does not exist
and the exported SavedModel input artifact is also absent, __call__ sets
status SKIPPED and returns None without running the conversion —
unconditionally for ConvertSavedModel2ONNX, and provided at least one GPU
is available for ConvertSavedModel2TFTRT. -/
theorem convert_missing_input_skipped :
    (∀ (c : ConvertSavedModel2ONNX) (workdir : String) (w : World),
      pathJoin workdir c.get_output_relative_path ∉ w.files →
      pathJoin workdir (tfExportedInputRel c.enable_xla c.jit_compile) ∉ w.files →
      c.call workdir w = ⟨.returned none, some .SKIPPED, false⟩)
    ∧ (∀ (c : ConvertSavedModel2TFTRT) (workdir : String) (w : World),
      w.available_gpus ≠ [] →
      pathJoin workdir c.get_output_relative_path ∉ w.files →
      pathJoin workdir (tfExportedInputRel c.enable_xla c.jit_compile) ∉ w.files →
      c.call workdir w = ⟨.returned none, some .SKIPPED, false⟩) := by
  constructor
  · intro c wd w hconv hexp
    unfold ConvertSavedModel2ONNX.call
    simp only [fmt_tf_savedmodel]
    rw [if_neg hconv, if_pos hexp]
  · intro c wd w hgpu hconv hexp
    unfold ConvertSavedModel2TFTRT.call
    rw [if_neg hgpu]
    simp only [fmt_tf_savedmodel]
    rw [if_neg hconv, if_pos hexp]

/-- Claim C4 witness: both skip paths at concrete empty worlds. -/
theorem convert_missing_input_skipped_witness :
    ConvertSavedModel2ONNX.call ⟨none, none⟩ "w" ⟨[], []⟩
      = ⟨.returned none, some .SKIPPED, false⟩
    ∧ ConvertSavedModel2TFTRT.call ⟨.FP16, none, none⟩ "w" ⟨[0], []⟩
      = ⟨.returned none, some .SKIPPED, false⟩ := by
  constructor
  · exact convert_missing_input_skipped.1 ⟨none, none⟩ "w" ⟨[], []⟩ (by decide) (by decide)
  · exact convert_missing_input_skipped.2 ⟨.FP16, none, none⟩ "w" ⟨[0], []⟩
      (by decide) (by decide) (by decide)

/-- Claim C5: whenever format_to_relative_model_path succeeds, the
directory name is the format value followed by the optional suffixes in
the fixed order -<jit-variant>, -xla, -jit, -<precision>, and the
filename is the fixed per-family one. -/
theorem format_path_dir_and_filename (format : Format) (jt : Option JitType)
    (pr : Option TensorRTPrecision) (xla jc : Option Bool) (rp : RelPath)
    (h : format_to_relative_model_path format jt pr xla jc = .ok rp) :
    rp.dir = specDirName format jt pr xla jc ∧ rp.file = familyFilename format := by
  have hb := resolverDirFileAgree_eval format jt pr xla jc
  unfold resolverDirFileAgree at hb
  rw [h] at hb
  simp only [Bool.and_eq_true, beq_iff_eq] at hb
  exact hb

/-- Claim C5 witness: the resolution of TORCH_TRT with script jit and
FP16 precision. -/
theorem format_path_dir_and_filename_witness :
    format_to_relative_model_path .TORCH_TRT (some .SCRIPT) (some .FP16) none none
      = .ok ⟨"torch-trt-script-fp16", "model.pt"⟩
    ∧ ((RelPath.mk "torch-trt-script-fp16" "model.pt").dir
        = specDirName .TORCH_TRT (some .SCRIPT) (some .FP16) none none
      ∧ (RelPath.mk "torch-trt-script-fp16" "model.pt").file = familyFilename .TORCH_TRT) :=
  ⟨by decide, format_path_dir_and_filename .TORCH_TRT (some .SCRIPT) (some .FP16)
    none none _ (by decide)⟩

/-- Claim C6: format_to_relative_model_path raises for every
underspecified combination — TENSORRT without precision, TORCHSCRIPT
without jit_type, TORCH_TRT missing jit_type or precision, and TF_TRT
without precision — never returning a default path there. -/
theorem format_path_underspecified_raises :
    (∀ jt xla jc, raisesError (format_to_relative_model_path .TENSORRT jt none xla jc) = true)
    ∧ (∀ pr xla jc, raisesError (format_to_relative_model_path .TORCHSCRIPT none pr xla jc) = true)
    ∧ (∀ pr xla jc, raisesError (format_to_relative_model_path .TORCH_TRT none pr xla jc) = true)
    ∧ (∀ jt xla jc, raisesError (format_to_relative_model_path .TORCH_TRT jt none xla jc) = true)
    ∧ (∀ jt xla jc, raisesError (format_to_relative_model_path .TF_TRT jt none xla jc) = true) := by
  decide

/-- Claim C7 counterexample: for a scalar string value containing a
single quote, the emitted argument is not the value's string form — the
encoder first replaces single quotes with double quotes. -/
theorem parse_kwargs_string_form_cex :
    parse_kwargs_to_cmd [("k", PyVal.pstr "it\x27s")] callSiteQuoteWrap = ["--k", "it\x22s"]
    ∧ pyStr (PyVal.pstr "it\x27s") = "it\x27s"
    ∧ parse_kwargs_to_cmd [("k", PyVal.pstr "it\x27s")] callSiteQuoteWrap
        ≠ ["--" ++ "k", pyStr (PyVal.pstr "it\x27s")] :=
  ⟨rfl, rfl, by decide⟩

/-- Claim C7 (amended): with the call site's quote_wrap_classes
(list, dict, tuple), parse_kwargs_to_cmd returns exactly two entries per
key in the mapping's order — the flag "--<key>" followed by the value's
string form with every single quote replaced by a double quote, wrapped
in single quotes exactly when the value is structured (a list, tuple, or
mapping) and bare otherwise. -/
theorem parse_kwargs_encoding (kwargs : List (String × PyVal)) :
    parse_kwargs_to_cmd kwargs callSiteQuoteWrap =
      kwargs.flatMap (fun kv =>
        ["--" ++ kv.1,
         if isStructured kv.2
         then "\x27" ++ pyCharReplace (pyStr kv.2) '\x27' '\x22' ++ "\x27"
         else pyCharReplace (pyStr kv.2) '\x27' '\x22'])
    ∧ (parse_kwargs_to_cmd kwargs callSiteQuoteWrap).length = 2 * kwargs.length := by
  constructor
  · unfold parse_kwargs_to_cmd
    congr 1
    funext kv
    rw [quoteWrap_eq_isStructured]
  · induction kwargs with
    | nil => rfl
    | cons kv rest ih =>
      simp only [parse_kwargs_to_cmd, List.flatMap_cons, List.length_append] at ih ⊢
      simp only [List.length_cons, List.length_nil]
      omega

/-- Claim C8: validate_sample_input and validate_sample_output raise
UserError exactly when the sample is not a single recognized tensor, nor
a Mapping whose every value is such a tensor, nor an Iterable whose every
element is such a tensor; on any of those three shapes they return
normally. -/
theorem validate_sample_raises_iff (sample : SampleVal PyObj) (framework : Framework) :
    ((∃ msg, validate_sample_input sample framework = .error msg)
      ↔ ¬ recognizedSampleShape sample framework)
    ∧ ((∃ msg, validate_sample_output sample framework = .error msg)
      ↔ ¬ recognizedSampleShape sample framework)
    ∧ (recognizedSampleShape sample framework →
        validate_sample_input sample framework = .ok ()
        ∧ validate_sample_output sample framework = .ok ()) := by
  have key : is_valid_io sample framework = true ↔ recognizedSampleShape sample framework := by
    cases sample with
    | single obj => simp [is_valid_io, recognizedSampleShape]
    | mapping kvs => simp [is_valid_io, recognizedSampleShape, List.all_eq_true]
    | iterable xs => simp [is_valid_io, recognizedSampleShape, List.all_eq_true]
  cases hvv : is_valid_io sample framework with
  | false =>
    have hs : ¬ recognizedSampleShape sample framework := by
      intro hcon
      have hneq := key.mpr hcon
      rw [hvv] at hneq
      exact Bool.noConfusion hneq
    have herr1 : validate_sample_input sample framework
        = .error (invalidSampleMsg framework) := by
      unfold validate_sample_input
      rw [hvv]
      rfl
    have herr2 : validate_sample_output sample framework
        = .error (invalidOutputMsg framework) := by
      unfold validate_sample_output
      rw [hvv]
      rfl
    exact ⟨⟨fun _ => hs, fun _ => ⟨_, herr1⟩⟩, ⟨fun _ => hs, fun _ => ⟨_, herr2⟩⟩,
      fun hcon => absurd hcon hs⟩
  | true =>
    have hs : recognizedSampleShape sample framework := key.mp hvv
    have hin : validate_sample_input sample framework = .ok () := by
      unfold validate_sample_input
      rw [hvv]
      rfl
    have hout : validate_sample_output sample framework = .ok () := by
      unfold validate_sample_output
      rw [hvv]
      rfl
    refine ⟨?_, ?_, fun _ => ⟨hin, hout⟩⟩
    · refine ⟨?_, fun hcon => absurd hs hcon⟩
      rintro ⟨msg, hmsg⟩
      rw [hin] at hmsg
      exact Except.noConfusion hmsg
    · refine ⟨?_, fun hcon => absurd hs hcon⟩
      rintro ⟨msg, hmsg⟩
      rw [hout] at hmsg
      exact Except.noConfusion hmsg

/-- Claim C8 witness: a non-tensor scalar raises under PYT while a torch
tensor passes. -/
theorem validate_sample_raises_iff_witness :
    (∃ msg, validate_sample_input (SampleVal.single (PyObj.nonTensor 0)) .PYT = .error msg)
    ∧ validate_sample_input (SampleVal.single (PyObj.tensor ⟨.torchTensor, 0⟩)) .PYT = .ok () :=
  ⟨(validate_sample_raises_iff (SampleVal.single (PyObj.nonTensor 0)) .PYT).1.mpr
      (by simp [recognizedSampleShape, is_tensor]),
   ((validate_sample_raises_iff (SampleVal.single (PyObj.tensor ⟨.torchTensor, 0⟩)) .PYT).2.2
      (Or.inl ⟨_, rfl, rfl⟩)).1⟩

/-- Claim C9: ConvertSavedModel2TFTRT.__call__ raises RuntimeError
whenever no GPUs are available, for every working directory and
filesystem state — in particular before and regardless of the cache-hit
check. -/
theorem tftrt_gpu_check_precedes_cache (c : ConvertSavedModel2TFTRT)
    (workdir : String) (w : World) (h : w.available_gpus = []) :
    c.call workdir w = ⟨.raised "No GPUs available.", none, false⟩ := by
  unfold ConvertSavedModel2TFTRT.call
  rw [if_pos h]

/-- Claim C9 witness: the RuntimeError fires at a concrete world whose
filesystem already holds the converted artifact. -/
theorem tftrt_gpu_check_precedes_cache_witness :
    pathJoin "w" (ConvertSavedModel2TFTRT.get_output_relative_path ⟨.FP32, none, none⟩)
      ∈ (World.mk [] ["w/tf-trt-fp32/model.savedmodel"]).files
    ∧ ConvertSavedModel2TFTRT.call ⟨.FP32, none, none⟩ "w"
        ⟨[], ["w/tf-trt-fp32/model.savedmodel"]⟩
      = ⟨.raised "No GPUs available.", none, false⟩ :=
  ⟨by decide, tftrt_gpu_check_precedes_cache ⟨.FP32, none, none⟩ "w"
    ⟨[], ["w/tf-trt-fp32/model.savedmodel"]⟩ rfl⟩

/-- Claim C10: extract_sample on a Mapping sample keeps only the
mapping's values in iteration order (sample_to_tuple), keys the result
positionally by input_metadata, and is entirely independent of the
mapping's own keys. -/
theorem extract_sample_keys_from_metadata (kvs : List (String × Tensor))
    (meta : List String) (fw : Framework) :
    sample_to_tuple (SampleVal.mapping kvs) = kvs.map Prod.snd
    ∧ (extract_sample (.mapping kvs) meta fw).map Prod.fst = meta.take kvs.length
    ∧ extract_sample (.mapping kvs) meta fw
        = extract_sample (.mapping (kvs.map (fun kv => ("", kv.2)))) meta fw := by
  refine ⟨rfl, ?_, ?_⟩
  · simp only [extract_sample, sample_to_tuple]
    rw [List.map_map,
      show (Prod.fst ∘ fun nt : String × Tensor => (nt.1, to_numpy nt.2 fw)) = Prod.fst
        from funext fun nt => rfl,
      map_fst_zip_take, List.length_map]
  · simp only [extract_sample, sample_to_tuple]
    rw [List.map_map,
      show (Prod.snd ∘ fun kv : String × Tensor => ("", kv.2)) = Prod.snd
        from funext fun kv => rfl]

end ModelNavigator
